import Mathlib

/-!
Verification of the IS31FL3731 LED-matrix driver.

The development shallowly embeds the two source files of the driver:

* `devices.rs` — the per-board logical-to-physical pixel translators
  (`calc_pixel`), modelled as pure functions on `Nat` with the `u8`
  partiality (subtraction underflow, out-of-bounds table indexing) made
  explicit through the `PixelResult.fault` constructor.
* `lib.rs` — the register-protocol engine, modelled as a state monad `M`
  over the device state `St` (cached frame index, number of bus writes
  issued so far, and the trace of issued bus events).  The i2c transport
  is a function `Nat → Bool` saying whether the i-th write transaction
  succeeds; the slave address byte is the same constant on every
  transaction and is not recorded in the trace.

All machine integers of the source are `u8`; they are modelled as `Nat`,
with explicit checks wherever the source's arithmetic could leave `[0, 255]`
(debug-mode overflow aborts are modelled as `fault` / `Option.none`).
-/

/-- Result of a board translator call: `ok v` models `Ok(v)`, `invalid c`
models `Err(Error::InvalidLocation(c))`, and `fault` models a Rust panic
(u8 arithmetic overflow in debug mode, or out-of-bounds table indexing). -/
inductive PixelResult where
  | fault : PixelResult
  | invalid : Nat → PixelResult
  | ok : Nat → PixelResult
deriving DecidableEq

/-- Checked subtraction: models debug-mode `u8` subtraction, which aborts
on underflow. -/
def sub? (a b : Nat) : Option Nat :=
  if b ≤ a then some (a - b) else none

/-- Transcribed from `CharlieBonnet::calc_pixel` in `devices.rs`.  In the
`x < 8` branch the source computes `7 - y` where the bounds check only
guarantees `y <= 8`, so the subtraction is checked; in the `x >= 8` branch
`x - 6` and `(x - 6) * 16 - (y + 1)` cannot underflow because `8 <= x` and
`y + 1 <= 9 <= 32 <= (x - 6) * 16`. -/
def CharlieBonnet.calcPixel (x y : Nat) : PixelResult :=
  if 16 < x then .invalid x
  else if 8 < y then .invalid y
  else if 8 ≤ x then .ok ((x - 6) * 16 - (y + 1))
  else
    match sub? 7 y with
    | none => .fault
    | some d => .ok ((x + 1) * 16 + d)

/-- Transcribed from `CharlieWing::calc_pixel` in `devices.rs`.  In the
`x > 7` branch the source computes `x -= 15`, which underflows for
`x ∈ [8, 14]`, so the subtraction is checked; in the other branch `7 - y`
is safe because the bounds check guarantees `y <= 7`. -/
def CharlieWing.calcPixel (x y : Nat) : PixelResult :=
  if 15 < x then .invalid x
  else if 7 < y then .invalid y
  else if 7 < x then
    match sub? x 15 with
    | none => .fault
    | some x' => .ok (x' * 16 + (y + 8))
  else .ok (x * 16 + (7 - y))

/-- The static lookup table of `Keybow2040::calc_pixel` (16 rows of 3). -/
def Keybow2040.lookup : List (List Nat) :=
  [[120, 88, 104], [136, 40, 72], [112, 80, 96], [128, 32, 64],
   [121, 89, 105], [137, 41, 73], [113, 81, 97], [129, 33, 65],
   [122, 90, 106], [138, 25, 74], [114, 82, 98], [130, 17, 66],
   [123, 91, 107], [139, 26, 75], [115, 83, 99], [131, 18, 67]]

/-- Transcribed from `Keybow2040::calc_pixel` in `devices.rs`: bounds
checks `x > 16` and `y > 3`, then `lookup[x][y]`, with the indexing
checked (the table has 16 rows of 3 entries, so `x = 16` or `y = 3`
indexes out of bounds). -/
def Keybow2040.calcPixel (x y : Nat) : PixelResult :=
  if 16 < x then .invalid x
  else if 3 < y then .invalid y
  else
    match Keybow2040.lookup[x]? with
    | none => .fault
    | some row =>
      match row[y]? with
      | none => .fault
      | some v => .ok v

/-- Transcribed from `LEDShim::calc_pixel` in `devices.rs`: bounds checks
`x > 28` and `y > 3`, then a branch per colour channel (`y = 0`, `y = 1`,
remaining `y`).  Every subtraction is guarded by the branch condition
(`118 - x` under `x < 7`, etc.), so plain truncated subtraction agrees
with `u8` arithmetic here. -/
def LEDShim.calcPixel (x y : Nat) : PixelResult :=
  if 28 < x then .invalid x
  else if 3 < y then .invalid y
  else if y = 0 then
    if x < 7 then .ok (118 - x)
    else if x < 15 then .ok (141 - x)
    else if x < 21 then .ok (106 + x)
    else if x = 21 then .ok 14
    else .ok (x - 14)
  else if y = 1 then
    if x < 2 then .ok (69 - x)
    else if x < 7 then .ok (86 - x)
    else if x < 12 then .ok (28 - x)
    else if x < 14 then .ok (45 - x)
    else if x = 14 then .ok 47
    else if x = 15 then .ok 41
    else if x < 21 then .ok (x + 9)
    else if x = 21 then .ok 95
    else if x < 26 then .ok (x + 67)
    else .ok (x + 50)
  else
    if x = 0 then .ok 85
    else if x < 7 then .ok (102 - x)
    else if x < 11 then .ok (44 - x)
    else if x = 14 then .ok 63
    else if x < 17 then .ok (42 + x)
    else if x < 21 then .ok (x + 25)
    else if x = 21 then .ok 111
    else if x < 27 then .ok (x + 83)
    else .ok 93

/-- Transcribed from `Matrix::calc_pixel` in `devices.rs`: bounds checks
`x > 16` and `y > 9`, then `x + y * 16`. -/
def Matrix.calcPixel (x y : Nat) : PixelResult :=
  if 16 < x then .invalid x
  else if 9 < y then .invalid y
  else .ok (x + y * 16)

/-! ## The register-protocol engine of `lib.rs` -/

/-- Register address constants from the `addresses` module of `lib.rs`. -/
def addresses.MODE_REGISTER : Nat := 0x00

def addresses.FRAME : Nat := 0x01

def addresses.AUDIOSYNC : Nat := 0x06

def addresses.SHUTDOWN : Nat := 0x0A

def addresses.CONFIG_BANK : Nat := 0x0B

def addresses.BANK_ADDRESS : Nat := 0xFD

def addresses.PICTURE_MODE : Nat := 0x00

def addresses.ENABLE_OFFSET : Nat := 0x00

def addresses.BLINK_OFFSET : Nat := 0x12

def addresses.COLOR_OFFSET : Nat := 0x24

/-- The error type `Error<I2cError>` of `lib.rs`.  The transport error
payload is opaque to the driver and is modelled by the bare `i2c`
constructor; `invalidFrame` is declared in the source but never
constructed. -/
inductive Err where
  | i2c : Err
  | invalidLocation : Nat → Err
  | invalidFrame : Nat → Err
deriving DecidableEq

/-- An observable event at the driver's lower boundary: one i2c write
transaction (the byte list passed to `i2c.write`, the constant slave
address omitted) or one call of the delay capability. -/
inductive Ev where
  | wr : List Nat → Ev
  | delayMs : Nat → Ev
deriving DecidableEq

/-- Device and instrumentation state: `frame` is the `frame` field of the
`IS31FL3731` struct (the cached frame index); `wcount` counts the i2c
write transactions issued so far; `rtrace` records every issued event,
most recent first (reversed, so that recording is constant-cost; the
chronological trace is `traceOf`). -/
structure St where
  frame : Nat
  wcount : Nat
  rtrace : List Ev
deriving DecidableEq

/-- The state of a freshly constructed driver (`IS31FL3731::new` sets
`frame: 0`), with no transactions issued yet. -/
def s0 : St := { frame := 0, wcount := 0, rtrace := [] }

/-- The chronological sequence of events issued so far. -/
def traceOf (s : St) : List Ev := s.rtrace.reverse


/-- Engine computations: given the transport behaviour (`t i` tells
whether the i-th write transaction of the device's lifetime succeeds) and
a state, produce a result and the new state.  Failures roll nothing
back. -/
def M (α : Type) : Type := (Nat → Bool) → St → Except Err α × St

/-- One primitive effect of the engine: an i2c write transaction
(`self.i2c.write(self.address, bytes)`), a delay (`delay.delay_ms(ms)`),
or the assignment `self.frame = f`. -/
inductive Act where
  | wr : List Nat → Act
  | delay : Nat → Act
  | setFrame : Nat → Act
deriving DecidableEq

/-- One step of a transcribed driver function.  Control flow in the
source is compiled away: a function body becomes the list of steps it
performs in order, and an early `return Err(e)` becomes a terminal
`failStop e` (nothing after it is ever reached, which the runner
enforces by aborting there). -/
inductive Step where
  | act : Act → Step
  | failStop : Err → Step
deriving DecidableEq

/-- Executes a step list: write transactions are issued in order, counted
and recorded, and the first failure — a transport failure of a write, or
a `failStop` validation error — aborts the rest and is returned.  This is
exactly the `?`-propagation of the source: every fallible call is
followed by `?`. -/
def runProg : List Step → (Nat → Bool) → St → Except Err Unit × St
  | [], _, s => (.ok (), s)
  | .act (.wr bytes) :: rest, t, s =>
    let s' : St := { s with wcount := s.wcount + 1, rtrace := Ev.wr bytes :: s.rtrace }
    if t s.wcount then runProg rest t s' else (.error .i2c, s')
  | .act (.delay ms) :: rest, t, s =>
    runProg rest t { s with rtrace := Ev.delayMs ms :: s.rtrace }
  | .act (.setFrame f) :: rest, t, s =>
    runProg rest t { s with frame := f }
  | .failStop e :: _, _, s => (.error e, s)

/-! ### Step-list transcriptions of the blocking impl block of `lib.rs` -/

/-- Transcribed from `bank_blocking`: one bank-select transaction. -/
def bank_steps (bank : Nat) : List Step :=
  [.act (.wr [addresses.BANK_ADDRESS, bank])]

/-- Transcribed from `write_register_blocking`: the bank select, then the
two-byte `[register, value]` transaction. -/
def write_register_steps (bank register value : Nat) : List Step :=
  bank_steps bank ++ [.act (.wr [register, value])]

/-- Transcribed from `fill_blocking`: `self.bank_blocking(frame)?`, then
the six row transactions (`payload[0] = COLOR_OFFSET + row * 24` followed
by the 24 brightness bytes of `[brightness; 25]`), then, only when
`blink.is_some()`, the 18 blink-register writes of
`(if blink.unwrap() { 1 } else { 0 }) * 0xFF`. -/
def fill_steps (brightness : Nat) (blink : Option Bool) (frame : Nat) : List Step :=
  bank_steps frame ++
  ((List.range 6).map fun row =>
    .act (.wr ((addresses.COLOR_OFFSET + row * 24) :: List.replicate 24 brightness))) ++
  match blink with
  | none => []
  | some bl =>
    (List.range 18).flatMap fun col =>
      write_register_steps frame (addresses.BLINK_OFFSET + col) ((if bl then 1 else 0) * 0xFF)

/-- Transcribed from `mode_blocking`. -/
def mode_steps (mode : Nat) : List Step :=
  write_register_steps addresses.CONFIG_BANK addresses.MODE_REGISTER mode

/-- Transcribed from `audio_sync_blocking`. -/
def audio_sync_steps (yes : Bool) : List Step :=
  write_register_steps addresses.CONFIG_BANK addresses.AUDIOSYNC (if yes then 1 else 0)

/-- Transcribed from `sleep_blocking`. -/
def sleep_steps (yes : Bool) : List Step :=
  write_register_steps addresses.CONFIG_BANK addresses.SHUTDOWN (if yes then 0 else 1)

/-- Transcribed from `frame_blocking`: the bounds check (early return),
then — in this order — the assignment `self.frame = frame` and the
fallible frame-register write. -/
def frame_steps (frame : Nat) : List Step :=
  if 8 < frame then [.failStop (.invalidLocation frame)]
  else .act (.setFrame frame) ::
    write_register_steps addresses.CONFIG_BANK addresses.FRAME frame

/-- Transcribed from `setup_blocking`: sleep assert, the 10 ms delay,
picture mode, frame select 0, then for `frame in 0..8` (frames 0 through
7) the zero fill with blink disabled followed by the 18 enable-register
writes of `0xFF`, then audio-sync disable and sleep deassert. -/
def setup_steps : List Step :=
  sleep_steps true ++
  [.act (.delay 10)] ++
  mode_steps addresses.PICTURE_MODE ++
  frame_steps 0 ++
  ((List.range 8).flatMap fun frame =>
    fill_steps 0 (some false) frame ++
    ((List.range 18).flatMap fun col =>
      write_register_steps frame (addresses.ENABLE_OFFSET + col) 0xFF)) ++
  audio_sync_steps false ++
  sleep_steps false

/-- Transcribed from `pixel_blocking`: the range check (early return),
then one register write in the currently cached frame. -/
def pixel_steps (curFrame led brightness : Nat) : List Step :=
  if 144 ≤ led then [.failStop (.invalidLocation led)]
  else write_register_steps curFrame (addresses.COLOR_OFFSET + led) brightness

/-- Transcribed from `all_pixels_blocking`: bank select of the cached
frame, then the single 145-byte bulk transaction. -/
def all_pixels_steps (curFrame : Nat) (buf : List Nat) : List Step :=
  bank_steps curFrame ++ [.act (.wr (addresses.COLOR_OFFSET :: buf))]

/-- Transcribed from `reset_blocking`. -/
def reset_steps : List Step :=
  sleep_steps true ++ [.act (.delay 10)] ++ sleep_steps false

/-- `fill_blocking` as a computation (the steps read no mutable state). -/
def fill_blocking (brightness : Nat) (blink : Option Bool) (frame : Nat) : M Unit :=
  fun t s => runProg (fill_steps brightness blink frame) t s

/-- `setup_blocking` as a computation. -/
def setup_blocking : M Unit :=
  fun t s => runProg setup_steps t s

/-- `pixel_blocking` as a computation; the source reads `self.frame`. -/
def pixel_blocking (led brightness : Nat) : M Unit :=
  fun t s => runProg (pixel_steps s.frame led brightness) t s

/-- `all_pixels_blocking` as a computation; the source reads `self.frame`. -/
def all_pixels_blocking (buf : List Nat) : M Unit :=
  fun t s => runProg (all_pixels_steps s.frame buf) t s

/-- `frame_blocking` as a computation. -/
def frame_blocking (frame : Nat) : M Unit :=
  fun t s => runProg (frame_steps frame) t s

/-- `reset_blocking` as a computation. -/
def reset_blocking : M Unit :=
  fun t s => runProg reset_steps t s

/-- `mode_blocking` as a computation. -/
def mode_blocking (mode : Nat) : M Unit :=
  fun t s => runProg (mode_steps mode) t s

/-- `audio_sync_blocking` as a computation. -/
def audio_sync_blocking (yes : Bool) : M Unit :=
  fun t s => runProg (audio_sync_steps yes) t s

/-- `sleep_blocking` as a computation. -/
def sleep_blocking (yes : Bool) : M Unit :=
  fun t s => runProg (sleep_steps yes) t s

/-! ### Step-list transcriptions of the async impl block of `lib.rs`

The suspendable implementation (the `embedded_hal_async` impl block,
lines 184–332) is transcribed separately here; a suspension point has no
observable effect in this model, so an awaited transport write is the
same `wr` step. -/

/-- Transcribed from the async `bank`. -/
def asyncImpl.bank_steps (bank : Nat) : List Step :=
  [.act (.wr [addresses.BANK_ADDRESS, bank])]

/-- Transcribed from the async `write_register`. -/
def asyncImpl.write_register_steps (bank register value : Nat) : List Step :=
  asyncImpl.bank_steps bank ++ [.act (.wr [register, value])]

/-- Transcribed from the async `fill`. -/
def asyncImpl.fill_steps (brightness : Nat) (blink : Option Bool) (frame : Nat) : List Step :=
  asyncImpl.bank_steps frame ++
  ((List.range 6).map fun row =>
    .act (.wr ((addresses.COLOR_OFFSET + row * 24) :: List.replicate 24 brightness))) ++
  match blink with
  | none => []
  | some bl =>
    (List.range 18).flatMap fun col =>
      asyncImpl.write_register_steps frame (addresses.BLINK_OFFSET + col)
        ((if bl then 1 else 0) * 0xFF)

/-- Transcribed from the async `mode`. -/
def asyncImpl.mode_steps (mode : Nat) : List Step :=
  asyncImpl.write_register_steps addresses.CONFIG_BANK addresses.MODE_REGISTER mode

/-- Transcribed from the async `audio_sync`. -/
def asyncImpl.audio_sync_steps (yes : Bool) : List Step :=
  asyncImpl.write_register_steps addresses.CONFIG_BANK addresses.AUDIOSYNC
    (if yes then 1 else 0)

/-- Transcribed from the async `sleep`. -/
def asyncImpl.sleep_steps (yes : Bool) : List Step :=
  asyncImpl.write_register_steps addresses.CONFIG_BANK addresses.SHUTDOWN
    (if yes then 0 else 1)

/-- Transcribed from the async `frame`. -/
def asyncImpl.frame_steps (frame : Nat) : List Step :=
  if 8 < frame then [.failStop (.invalidLocation frame)]
  else .act (.setFrame frame) ::
    asyncImpl.write_register_steps addresses.CONFIG_BANK addresses.FRAME frame

/-- Transcribed from the async `setup`. -/
def asyncImpl.setup_steps : List Step :=
  asyncImpl.sleep_steps true ++
  [.act (.delay 10)] ++
  asyncImpl.mode_steps addresses.PICTURE_MODE ++
  asyncImpl.frame_steps 0 ++
  ((List.range 8).flatMap fun frame =>
    asyncImpl.fill_steps 0 (some false) frame ++
    ((List.range 18).flatMap fun col =>
      asyncImpl.write_register_steps frame (addresses.ENABLE_OFFSET + col) 0xFF)) ++
  asyncImpl.audio_sync_steps false ++
  asyncImpl.sleep_steps false

/-- Transcribed from the async `pixel`. -/
def asyncImpl.pixel_steps (curFrame led brightness : Nat) : List Step :=
  if 144 ≤ led then [.failStop (.invalidLocation led)]
  else asyncImpl.write_register_steps curFrame (addresses.COLOR_OFFSET + led) brightness

/-- Transcribed from the async `all_pixels`. -/
def asyncImpl.all_pixels_steps (curFrame : Nat) (buf : List Nat) : List Step :=
  asyncImpl.bank_steps curFrame ++ [.act (.wr (addresses.COLOR_OFFSET :: buf))]

/-- Transcribed from the async `reset`. -/
def asyncImpl.reset_steps : List Step :=
  asyncImpl.sleep_steps true ++ [.act (.delay 10)] ++ asyncImpl.sleep_steps false

/-- The async `fill` as a computation. -/
def asyncImpl.fill (brightness : Nat) (blink : Option Bool) (frame : Nat) : M Unit :=
  fun t s => runProg (asyncImpl.fill_steps brightness blink frame) t s

/-- The async `setup` as a computation. -/
def asyncImpl.setup : M Unit :=
  fun t s => runProg asyncImpl.setup_steps t s

/-- The async `pixel` as a computation. -/
def asyncImpl.pixel (led brightness : Nat) : M Unit :=
  fun t s => runProg (asyncImpl.pixel_steps s.frame led brightness) t s

/-- The async `all_pixels` as a computation. -/
def asyncImpl.all_pixels (buf : List Nat) : M Unit :=
  fun t s => runProg (asyncImpl.all_pixels_steps s.frame buf) t s

/-- The async `frame` as a computation. -/
def asyncImpl.frame (frame : Nat) : M Unit :=
  fun t s => runProg (asyncImpl.frame_steps frame) t s

/-- The async `reset` as a computation. -/
def asyncImpl.reset : M Unit :=
  fun t s => runProg asyncImpl.reset_steps t s

/-- The async `mode` as a computation. -/
def asyncImpl.mode (mode : Nat) : M Unit :=
  fun t s => runProg (asyncImpl.mode_steps mode) t s

/-- The async `audio_sync` as a computation. -/
def asyncImpl.audio_sync (yes : Bool) : M Unit :=
  fun t s => runProg (asyncImpl.audio_sync_steps yes) t s

/-- The async `sleep` as a computation. -/
def asyncImpl.sleep (yes : Bool) : M Unit :=
  fun t s => runProg (asyncImpl.sleep_steps yes) t s

/-! ### Expected-trace vocabulary

These definitions spell out, at the wire level, the transaction sequences
that the spec's testable properties describe; they are the spec side of
the trace comparisons below.  A "register write" on the wire is a
bank-select transaction `[0xFD, bank]` followed by the two-byte
transaction `[register, value]`. -/

/-- The wire form of one register write, per the spec's bank/write
protocol. -/
def registerWriteTxns (bank register value : Nat) : List Ev :=
  [.wr [addresses.BANK_ADDRESS, bank], .wr [register, value]]

/-- The six bulk colour-row transactions of a fill: each carries the row
offset byte `0x24 + row * 24` followed by 24 copies of the brightness. -/
def fillRowTxns (brightness : Nat) : List Ev :=
  (List.range 6).map fun row =>
    .wr ((addresses.COLOR_OFFSET + row * 24) :: List.replicate 24 brightness)

/-- The 18 blink-register writes of a fill with blink explicitly set,
each preceded by its bank select. -/
def blinkTxns (frame value : Nat) : List Ev :=
  (List.range 18).flatMap fun col =>
    registerWriteTxns frame (addresses.BLINK_OFFSET + col) value

/-- The 18 display-enable register writes of one frame during setup. -/
def enableTxns (frame : Nat) : List Ev :=
  (List.range 18).flatMap fun col =>
    registerWriteTxns frame (addresses.ENABLE_OFFSET + col) 0xFF

/-- The event sequence the spec prescribes for `setup`, parameterised by
the number of frames initialised: sleep assert, the 10 ms delay, picture
mode, frame select 0, then per frame a zero fill with blink disabled
followed by the 18 enable writes, then audio-sync disable and sleep
deassert. -/
def specSetupTrace (nFrames : Nat) : List Ev :=
  registerWriteTxns addresses.CONFIG_BANK addresses.SHUTDOWN 0 ++
  [.delayMs 10] ++
  registerWriteTxns addresses.CONFIG_BANK addresses.MODE_REGISTER addresses.PICTURE_MODE ++
  registerWriteTxns addresses.CONFIG_BANK addresses.FRAME 0 ++
  ((List.range nFrames).flatMap fun f =>
    (.wr [addresses.BANK_ADDRESS, f] :: fillRowTxns 0 ++ blinkTxns f 0) ++ enableTxns f) ++
  registerWriteTxns addresses.CONFIG_BANK addresses.AUDIOSYNC 0 ++
  registerWriteTxns addresses.CONFIG_BANK addresses.SHUTDOWN 1

/-! ### Remaining definitions: counting helpers, the gamma table, and the
Keybow2040 RGB index computation -/

/-- The transport that fails exactly on the n-th write transaction
(1-based) and succeeds on every other one. -/
def failAt (n : Nat) : Nat → Bool := fun i => decide (i + 1 ≠ n)

/-- The number of write transactions a step list issues when every write
succeeds. -/
def writeCount : List Step → Nat
  | [] => 0
  | .act (.wr _) :: rest => writeCount rest + 1
  | _ :: rest => writeCount rest

/-- Whether a step list is free of validation failures. -/
def noFailStop : List Step → Bool
  | [] => true
  | .failStop _ :: _ => false
  | .act _ :: rest => noFailStop rest

/-- The 256-entry `GAMMA_TABLE` of `lib.rs`, transcribed verbatim. -/
def GAMMA_TABLE : List Nat :=
  [0, 0, 0, 0, 0, 0, 0, 0, 0, 0, 0, 0, 0, 0, 0, 0, 0, 0, 0, 0, 0, 0, 1, 1, 1, 1, 1, 1, 1, 2, 2, 2,
   2, 2, 2, 3, 3, 3, 3, 3, 4, 4, 4, 4, 5, 5, 5, 5, 6, 6, 6, 7, 7, 7, 8, 8, 8, 9, 9, 9, 10, 10, 11,
   11, 11, 12, 12, 13, 13, 13, 14, 14, 15, 15, 16, 16, 17, 17, 18, 18, 19, 19, 20, 21, 21, 22, 22,
   23, 23, 24, 25, 25, 26, 27, 27, 28, 29, 29, 30, 31, 31, 32, 33, 34, 34, 35, 36, 37, 37, 38, 39,
   40, 40, 41, 42, 43, 44, 45, 46, 46, 47, 48, 49, 50, 51, 52, 53, 54, 55, 56, 57, 58, 59, 60, 61,
   62, 63, 64, 65, 66, 67, 68, 69, 70, 71, 72, 73, 74, 76, 77, 78, 79, 80, 81, 83, 84, 85, 86, 88,
   89, 90, 91, 93, 94, 95, 96, 98, 99, 100, 102, 103, 104, 106, 107, 109, 110, 111, 113, 114, 116,
   117, 119, 120, 121, 123, 124, 126, 128, 129, 131, 132, 134, 135, 137, 138, 140, 142, 143, 145,
   146, 148, 150, 151, 153, 155, 157, 158, 160, 162, 163, 165, 167, 169, 170, 172, 174, 176, 178,
   179, 181, 183, 185, 187, 189, 191, 193, 194, 196, 198, 200, 202, 204, 206, 208, 210, 212, 214,
   216, 218, 220, 222, 224, 227, 229, 231, 233, 235, 237, 239, 241, 244, 246, 248, 250, 252, 255]

/-- Transcribed from `gamma` in `lib.rs`: `GAMMA_TABLE[val as usize]`.
The argument is a `u8`, so the table access is always in bounds; the
default value of `getD` is never reached for `val ≤ 255`. -/
def gamma (val : Nat) : Nat := GAMMA_TABLE.getD val 0

/-- Whether a translator call returned `Ok(_)`. -/
def returnsOk : PixelResult → Bool
  | .ok _ => true
  | _ => false

/-- Transcribed from the line `let x = (4 * (3 - x)) + y;` of
`Keybow2040::pixel_rgb_blocking` / `pixel_rgb` in `devices.rs`, the first
thing either function computes, before any coordinate validation or bus
transaction.  Debug-mode `u8` arithmetic: `3 - x` aborts on underflow
(modelled by `sub?`), and the final sum aborts above 255. -/
def keybowRgbIndex (x y : Nat) : Option Nat :=
  match sub? 3 x with
  | none => none
  | some d => if 4 * d + y ≤ 255 then some (4 * d + y) else none

/-! ## Theorems -/

set_option maxRecDepth 4000 in
/-- Adjacent-step monotonicity of the gamma table. -/
theorem gamma_step_le : ∀ k, k < 255 → gamma k ≤ gamma (k + 1) := by decide

/-- Claim C9: the gamma function satisfies `gamma 0 = 0` and
`gamma 255 = 255`, and is non-decreasing over the `u8` domain. -/
theorem gamma_endpoints_and_monotone :
    gamma 0 = 0 ∧ gamma 255 = 255 ∧
    ∀ a b : Nat, a ≤ b → b ≤ 255 → gamma a ≤ gamma b := by
  refine ⟨rfl, rfl, ?_⟩
  intro a b hab
  induction b, hab using Nat.le_induction with
  | base => intro _; exact Nat.le_refl _
  | succ n hn ih =>
    intro hb
    exact Nat.le_trans (ih (by omega)) (gamma_step_le n (by omega))

/-- Witness for C9 at concrete inputs. -/
theorem gamma_endpoints_and_monotone_witness :
    gamma 0 = 0 ∧ gamma 255 = 255 ∧ gamma 7 ≤ gamma 200 :=
  ⟨gamma_endpoints_and_monotone.1, gamma_endpoints_and_monotone.2.1,
   gamma_endpoints_and_monotone.2.2 7 200 (by decide) (by decide)⟩

/-- Claim C10: the derived index of the Keybow2040 RGB pixel operation is
computed before any validation; for `x ≤ 3` and `y ≤ 3` it is defined,
lies in `[0, 15]`, and all three channel lookups return `Ok`, while for
`x ≥ 4` the subtraction `3 - x` underflows. -/
theorem keybow_rgb_requires_x_le_three (x y : Nat) :
    (x ≤ 3 → y ≤ 3 →
      keybowRgbIndex x y = some (4 * (3 - x) + y) ∧
      4 * (3 - x) + y < 16 ∧
      returnsOk (Keybow2040.calcPixel (4 * (3 - x) + y) 0) = true ∧
      returnsOk (Keybow2040.calcPixel (4 * (3 - x) + y) 1) = true ∧
      returnsOk (Keybow2040.calcPixel (4 * (3 - x) + y) 2) = true) ∧
    (4 ≤ x → keybowRgbIndex x y = none) := by
  constructor
  · intro hx hy
    interval_cases x <;> interval_cases y <;> decide
  · intro hx
    simp [keybowRgbIndex, sub?, show ¬ x ≤ 3 by omega]

/-- Witness for C10 at concrete inputs. -/
theorem keybow_rgb_requires_x_le_three_witness :
    keybowRgbIndex 1 2 = some 10 ∧ keybowRgbIndex 4 0 = none := by
  constructor
  · have h := (keybow_rgb_requires_x_le_three 1 2).1 (by decide) (by decide)
    simpa using h.1
  · exact (keybow_rgb_requires_x_le_three 4 0).2 (by decide)

/-- Claim C3: evaluation of the translators at in-bounds-accepted inputs
that nonetheless abort or leave `[0, 144)`: `CharlieWing::calc_pixel(8, 0)`
underflows (`x -= 15`), `CharlieBonnet::calc_pixel(16, 0)` returns
`Ok(159)` which is outside `[0, 144)`, and `Keybow2040::calc_pixel`
accepts `x = 16` and `y = 3` although its table has 16 rows of 3. -/
theorem calc_pixel_bounds_violations :
    CharlieWing.calcPixel 8 0 = .fault ∧
    CharlieBonnet.calcPixel 16 0 = .ok 159 ∧ ¬ 159 < 144 ∧
    Keybow2040.calcPixel 16 0 = .fault ∧
    Keybow2040.calcPixel 0 3 = .fault := by decide

/-- Claim C4, counterexample: within the regions the bounds checks
accept, two distinct coordinate pairs of the Matrix layout and two
distinct per-channel coordinates of the LEDShim layout map to the same
physical index. -/
theorem calc_pixel_collisions_at_slack :
    Matrix.calcPixel 16 0 = .ok 16 ∧ Matrix.calcPixel 0 1 = .ok 16 ∧
    ¬ (16 = 0 ∧ (0 : Nat) = 1) ∧
    LEDShim.calcPixel 21 0 = .ok 14 ∧ LEDShim.calcPixel 28 0 = .ok 14 ∧
    ¬ (21 : Nat) = 28 := by decide

/-- Claim C4 (amended): restricted to the true board ranges (Matrix
16×10 grid `x < 16`; LEDShim 28 pixels `x < 28`, per colour channel
`y < 3`), the translators are injective. -/
theorem calc_pixel_injective_within_board :
    (∀ x1, x1 < 16 → ∀ y1, y1 < 10 → ∀ x2, x2 < 16 → ∀ y2, y2 < 10 →
      Matrix.calcPixel x1 y1 = Matrix.calcPixel x2 y2 → x1 = x2 ∧ y1 = y2) ∧
    (∀ y, y < 3 → ∀ x1, x1 < 28 → ∀ x2, x2 < 28 →
      LEDShim.calcPixel x1 y = LEDShim.calcPixel x2 y → x1 = x2) := by
  constructor
  · intro x1 hx1 y1 hy1 x2 hx2 y2 hy2 h
    simp [Matrix.calcPixel, show ¬ 16 < x1 by omega, show ¬ 9 < y1 by omega,
      show ¬ 16 < x2 by omega, show ¬ 9 < y2 by omega] at h
    omega
  · decide

/-- Witness for C4 at concrete inputs. -/
theorem calc_pixel_injective_within_board_witness : (5 : Nat) = 5 :=
  calc_pixel_injective_within_board.2 0 (by decide) 5 (by decide) 5 (by decide) rfl

/-- Claim C1, counterexample: with a transport that fails every write,
`frame_blocking(3)` returns the transport error yet the cached frame
index has changed from 0 to 3. -/
theorem frame_transport_error_updates_cache :
    (frame_blocking 3 (fun _ => false) s0).1 = .error .i2c ∧
    (frame_blocking 3 (fun _ => false) s0).2.frame = 3 ∧
    s0.frame = 0 := ⟨rfl, rfl, rfl⟩

/-- Claim C1 (amended): `frame_blocking(f)` for `f > 8` fails with
`InvalidLocation(f)` and leaves the state untouched; for `f ≤ 8` the
cached frame index is set to `f` before the bus transactions, so it
equals `f` regardless of the transport outcome, and the call returns `Ok`
exactly when both the bank-select and the frame-register write succeed. -/
theorem frame_cache_updated_before_write (f : Nat) (t : Nat → Bool) (s : St) :
    (8 < f → frame_blocking f t s = (.error (.invalidLocation f), s)) ∧
    (f ≤ 8 →
      (frame_blocking f t s).2.frame = f ∧
      ((frame_blocking f t s).1 = .ok () ↔
        t s.wcount = true ∧ t (s.wcount + 1) = true)) := by
  constructor
  · intro hf
    simp [frame_blocking, frame_steps, hf, runProg]
  · intro hf
    have hf' : ¬ 8 < f := by omega
    cases h1 : t s.wcount <;> cases h2 : t (s.wcount + 1) <;>
      simp [frame_blocking, frame_steps, hf', runProg, write_register_steps,
        bank_steps, h1, h2]

/-- Witness for C1 at concrete inputs. -/
theorem frame_cache_updated_before_write_witness :
    frame_blocking 9 (fun _ => true) s0 = (.error (.invalidLocation 9), s0) ∧
    (frame_blocking 3 (fun _ => true) s0).2.frame = 3 :=
  ⟨(frame_cache_updated_before_write 9 (fun _ => true) s0).1 (by decide),
   ((frame_cache_updated_before_write 3 (fun _ => true) s0).2 (by decide)).1⟩

/-- Claim C5: `pixel_blocking(led, b)` with `led ≥ 144` fails with
`InvalidLocation(led)` and issues no transaction (the state is
unchanged); with `led < 144`, on a transport that accepts everything, it
returns `Ok` and issues exactly the bank select of the cached frame
followed by the two-byte `[0x24 + led, b]` write. -/
theorem pixel_validates_then_issues_two_txns (led brightness : Nat)
    (t : Nat → Bool) (s : St) :
    (144 ≤ led → pixel_blocking led brightness t s = (.error (.invalidLocation led), s)) ∧
    (led < 144 →
      (pixel_blocking led brightness (fun _ => true) s).1 = .ok () ∧
      (pixel_blocking led brightness (fun _ => true) s).2.frame = s.frame ∧
      (pixel_blocking led brightness (fun _ => true) s).2.wcount = s.wcount + 2 ∧
      traceOf (pixel_blocking led brightness (fun _ => true) s).2 =
        traceOf s ++ [.wr [addresses.BANK_ADDRESS, s.frame],
                      .wr [addresses.COLOR_OFFSET + led, brightness]]) := by
  constructor
  · intro h
    simp [pixel_blocking, pixel_steps, h, runProg]
  · intro h
    have h' : ¬ 144 ≤ led := by omega
    simp [pixel_blocking, pixel_steps, h', runProg, write_register_steps,
      bank_steps, traceOf]

/-- Witness for C5 at concrete inputs. -/
theorem pixel_validates_then_issues_two_txns_witness :
    pixel_blocking 144 9 (fun _ => true) s0 = (.error (.invalidLocation 144), s0) ∧
    (pixel_blocking 143 9 (fun _ => true) s0).1 = .ok () ∧
    traceOf (pixel_blocking 143 9 (fun _ => true) s0).2 =
      traceOf s0 ++ [.wr [addresses.BANK_ADDRESS, s0.frame],
                     .wr [addresses.COLOR_OFFSET + 143, 9]] :=
  ⟨(pixel_validates_then_issues_two_txns 144 9 (fun _ => true) s0).1 (by decide),
   ((pixel_validates_then_issues_two_txns 143 9 (fun _ => true) s0).2 (by decide)).1,
   ((pixel_validates_then_issues_two_txns 143 9 (fun _ => true) s0).2 (by decide)).2.2.2⟩

set_option maxRecDepth 10000 in
/-- Claim C2, counterexample: against an always-succeeding transport,
the transaction sequence `setup_blocking` issues is not the spec sequence
for nine frames 0 through 8 — the loop `for frame in 0..8` initialises
only frames 0 through 7. -/
theorem setup_trace_is_not_nine_frames :
    ¬ traceOf (setup_blocking (fun _ => true) s0).2 = specSetupTrace 9 := by decide

set_option maxRecDepth 10000 in
/-- Claim C2 (amended): against an always-succeeding transport,
`setup_blocking` returns `Ok` and issues exactly the prescribed ordered
sequence — sleep assert, 10 ms delay, picture mode, frame select 0, per
frame the zero fill with blink disabled then the 18 enable writes, audio
sync disable, sleep deassert — for the eight frames 0 through 7, 642
write transactions in total. -/
theorem setup_trace_matches_eight_frames :
    (setup_blocking (fun _ => true) s0).1 = .ok () ∧
    traceOf (setup_blocking (fun _ => true) s0).2 = specSetupTrace 8 ∧
    (setup_blocking (fun _ => true) s0).2.wcount = 642 := ⟨rfl, rfl, rfl⟩

/-- Claim C6: `fill_blocking` on an always-succeeding transport issues
exactly the bank select and the six bulk row transactions (offset
`0x24 + row * 24` followed by 24 copies of the brightness); with blink
unset it issues no blink-register writes, with blink `Some(true)` /
`Some(false)` it additionally issues exactly the 18 blink-register writes
of `0xFF` / `0x00`. -/
theorem fill_issues_rows_then_blink (brightness frame : Nat) :
    traceOf (fill_blocking brightness none frame (fun _ => true) s0).2 =
      .wr [addresses.BANK_ADDRESS, frame] :: fillRowTxns brightness ∧
    (fill_blocking brightness none frame (fun _ => true) s0).1 = .ok () ∧
    traceOf (fill_blocking brightness (some true) frame (fun _ => true) s0).2 =
      .wr [addresses.BANK_ADDRESS, frame] :: fillRowTxns brightness ++ blinkTxns frame 0xFF ∧
    (fill_blocking brightness (some true) frame (fun _ => true) s0).1 = .ok () ∧
    traceOf (fill_blocking brightness (some false) frame (fun _ => true) s0).2 =
      .wr [addresses.BANK_ADDRESS, frame] :: fillRowTxns brightness ++ blinkTxns frame 0x00 ∧
    (fill_blocking brightness (some false) frame (fun _ => true) s0).1 = .ok () :=
  ⟨rfl, rfl, rfl, rfl, rfl, rfl⟩

/-- Abort behaviour of the runner: on a failure-free step list, if the
transport accepts every write before the n-th of the device's lifetime
and rejects the n-th (with the list long enough to reach it), the run
returns the transport error with exactly n writes issued. -/
theorem runProg_fail_at (t : Nat → Bool) (n : Nat) :
    ∀ (p : List Step) (s : St), noFailStop p = true →
    s.wcount < n → n ≤ s.wcount + writeCount p →
    (∀ i, s.wcount ≤ i → i + 1 < n → t i = true) → t (n - 1) = false →
    (runProg p t s).1 = .error .i2c ∧ (runProg p t s).2.wcount = n := by
  intro p
  induction p with
  | nil =>
    intro s _ h1 h2 _ _
    simp [writeCount] at h2
    omega
  | cons st rest ih =>
    intro s hnf h1 h2 ht hf
    cases st with
    | act a =>
      have hnf' : noFailStop rest = true := by
        cases a <;> simpa [noFailStop] using hnf
      cases a with
      | wr bytes =>
        by_cases hw : t s.wcount = true
        · have hlt : s.wcount + 1 < n := by
            rcases Nat.lt_or_ge (s.wcount + 1) n with h | h
            · exact h
            · exfalso
              have hn1 : n - 1 = s.wcount := by omega
              rw [hn1, hw] at hf
              exact Bool.noConfusion hf
          have h2' : n ≤ s.wcount + 1 + writeCount rest := by
            simp [writeCount] at h2
            omega
          have hrec := ih ⟨s.frame, s.wcount + 1, Ev.wr bytes :: s.rtrace⟩ hnf'
            (by simpa using hlt) (by simpa using h2')
            (fun i hi hin => ht i (by simp at hi; omega) hin) hf
          simpa [runProg, hw] using hrec
        · have hw' : t s.wcount = false := by simpa using hw
          have hn : n = s.wcount + 1 := by
            rcases Nat.lt_or_ge (s.wcount + 1) n with h | h
            · exact absurd (ht s.wcount (Nat.le_refl _) h) hw
            · omega
          refine ⟨by simp [runProg, hw'], ?_⟩
          simp [runProg, hw']
          omega
      | delay ms =>
        have hrec := ih ⟨s.frame, s.wcount, Ev.delayMs ms :: s.rtrace⟩ hnf'
          (by simpa using h1) (by simp [writeCount] at h2 ⊢; omega)
          (fun i hi hin => ht i (by simpa using hi) hin) hf
        simpa [runProg] using hrec
      | setFrame f =>
        have hrec := ih ⟨f, s.wcount, s.rtrace⟩ hnf'
          (by simpa using h1) (by simp [writeCount] at h2 ⊢; omega)
          (fun i hi hin => ht i (by simpa using hi) hin) hf
        simpa [runProg] using hrec
    | failStop e =>
      simp [noFailStop] at hnf

set_option maxRecDepth 10000 in
/-- The setup sequence contains no validation failure. -/
theorem setup_steps_noFailStop : noFailStop setup_steps = true := by decide

set_option maxRecDepth 10000 in
/-- The setup sequence issues 642 write transactions in total. -/
theorem setup_steps_writeCount : writeCount setup_steps = 642 := by decide

/-- Claim C7: if the transport fails on the n-th write transaction issued
during setup (and accepts the ones before it), `setup_blocking` returns
the transport error with exactly n transport write calls issued — nothing
is issued after the failing transaction. -/
theorem setup_aborts_at_failed_transaction (n : Nat) (h1 : 1 ≤ n) (h2 : n ≤ 642) :
    (setup_blocking (failAt n) s0).1 = .error .i2c ∧
    (setup_blocking (failAt n) s0).2.wcount = n := by
  have hs : setup_blocking (failAt n) s0 = runProg setup_steps (failAt n) s0 := rfl
  rw [hs]
  refine runProg_fail_at (failAt n) n setup_steps s0 setup_steps_noFailStop ?_ ?_ ?_ ?_
  · show s0.wcount < n
    have : s0.wcount = 0 := rfl
    omega
  · have h642 := setup_steps_writeCount
    have : s0.wcount = 0 := rfl
    omega
  · intro i _ hin
    simp [failAt]
    omega
  · simp [failAt]
    omega

/-- Witness for C7 at a concrete transport that fails on the 3rd write. -/
theorem setup_aborts_at_failed_transaction_witness :
    (setup_blocking (failAt 3) s0).1 = .error .i2c ∧
    (setup_blocking (failAt 3) s0).2.wcount = 3 :=
  setup_aborts_at_failed_transaction 3 (by decide) (by decide)

/-- Claim C8: every public operation behaves identically in its blocking
and its suspendable form — same arguments, same initial device state and
same transport responses give the same result, the same transactions in
the same order, and the same final state (the two sides are the separate
transcriptions of the two impl blocks of `lib.rs`). -/
theorem blocking_async_equivalent (brightness fr led m : Nat)
    (blink : Option Bool) (yes : Bool) (buf : List Nat)
    (t : Nat → Bool) (s : St) :
    fill_blocking brightness blink fr t s = asyncImpl.fill brightness blink fr t s ∧
    setup_blocking t s = asyncImpl.setup t s ∧
    pixel_blocking led brightness t s = asyncImpl.pixel led brightness t s ∧
    all_pixels_blocking buf t s = asyncImpl.all_pixels buf t s ∧
    frame_blocking fr t s = asyncImpl.frame fr t s ∧
    reset_blocking t s = asyncImpl.reset t s ∧
    mode_blocking m t s = asyncImpl.mode m t s ∧
    audio_sync_blocking yes t s = asyncImpl.audio_sync yes t s ∧
    sleep_blocking yes t s = asyncImpl.sleep yes t s :=
  ⟨rfl, rfl, rfl, rfl, rfl, rfl, rfl, rfl, rfl⟩
